import Mathlib

/-!
Verification of the BearingPost parametric solid-modeling pipeline
(`src/stl_generator.py`) against its natural-language specification.

The Python source is shallowly embedded: pure numeric code uses `ℚ`
(Python floats are used exactly on the inputs of interest), Python ints
use `ℤ`/`ℕ`, fallible code returns `Except`/`Option`, and the external
trimesh boolean backend is passed in as an oracle function whose result
distinguishes a raised exception, a returned `None`, and a returned mesh.
-/

/-- A triangulated mesh: ordered vertices and ordered index-triple faces
(the `trimesh.Trimesh` data the generator manipulates). -/
structure Trimesh where
  vertices : List (ℚ × ℚ × ℚ)
  faces : List (ℕ × ℕ × ℕ)
deriving DecidableEq, Repr

/-- Embedding of `trimesh.util.concatenate`: place all meshes into one,
offsetting each mesh's face indices by the vertices accumulated so far. -/
def concatenate (meshes : List Trimesh) : Trimesh :=
  meshes.foldl
    (fun acc m =>
      let off := acc.vertices.length
      { vertices := acc.vertices ++ m.vertices
        faces := acc.faces ++ m.faces.map (fun f => (f.1 + off, f.2.1 + off, f.2.2 + off)) })
    ⟨[], []⟩

/-- Outcome of one external boolean-backend call (`trimesh.boolean.union`
or `Trimesh.difference`): the call can raise, return Python `None`, or
return a mesh (possibly with zero faces). -/
inductive BoolOpResult where
  | raised
  | returnedNone
  | mesh (m : Trimesh)
deriving DecidableEq, Repr

/-- Embedding of `DirectionSignGenerator._get_boolean_engine`
(stl_generator.py lines 168-172): return `"manifold"` when it is among
the available engines, otherwise raise a `RuntimeError`.  The declared
Python return type is `str | None` but `None` is never returned. -/
def get_boolean_engine (engines_available : List String) : Except String (Option String) :=
  if "manifold" ∈ engines_available then Except.ok (some "manifold")
  else Except.error "manifold boolean engine not available. Install manifold3d."

/-- Embedding of `DirectionSignGenerator._union_meshes`
(stl_generator.py lines 267-302).  `clean` stands for
`_prepare_mesh_for_boolean` and `booleanUnion useExact ms` for
`trimesh.boolean.union(ms, use_exact=useExact, ...)`; both are external
collaborators.  Besides the resulting mesh the embedding records the
trace of boolean-union attempts, each as
(`use_exact` flag, list of meshes passed to the backend).
Control flow matches the source: an empty input list raises ValueError;
a missing engine propagates the RuntimeError from `_get_boolean_engine`;
the first attempt is made on `cleaned_meshes`; if it returns `None` or
an empty mesh, the retry is made on the original `meshes`; a raised
exception in either attempt falls through to `trimesh.util.concatenate`. -/
def union_meshes (engines_available : List String) (clean : Trimesh → Trimesh)
    (booleanUnion : Bool → List Trimesh → BoolOpResult)
    (meshes : List Trimesh) : Except String (Trimesh × List (Bool × List Trimesh)) :=
  if meshes = [] then Except.error "No meshes to union"
  else
    match get_boolean_engine engines_available with
    | Except.error e => Except.error e
    | Except.ok none => Except.ok (concatenate meshes, [])
    | Except.ok (some _) =>
      let cleaned_meshes := meshes.map clean
      match booleanUnion false cleaned_meshes with
      | BoolOpResult.mesh unioned =>
        if 0 < unioned.faces.length then
          Except.ok (unioned, [(false, cleaned_meshes)])
        else
          match booleanUnion true meshes with
          | BoolOpResult.mesh unioned2 =>
            if 0 < unioned2.faces.length then
              Except.ok (unioned2, [(false, cleaned_meshes), (true, meshes)])
            else
              Except.ok (concatenate meshes, [(false, cleaned_meshes), (true, meshes)])
          | BoolOpResult.returnedNone =>
              Except.ok (concatenate meshes, [(false, cleaned_meshes), (true, meshes)])
          | BoolOpResult.raised =>
              Except.ok (concatenate meshes, [(false, cleaned_meshes), (true, meshes)])
      | BoolOpResult.returnedNone =>
        match booleanUnion true meshes with
        | BoolOpResult.mesh unioned2 =>
          if 0 < unioned2.faces.length then
            Except.ok (unioned2, [(false, cleaned_meshes), (true, meshes)])
          else
            Except.ok (concatenate meshes, [(false, cleaned_meshes), (true, meshes)])
        | BoolOpResult.returnedNone =>
            Except.ok (concatenate meshes, [(false, cleaned_meshes), (true, meshes)])
        | BoolOpResult.raised =>
            Except.ok (concatenate meshes, [(false, cleaned_meshes), (true, meshes)])
      | BoolOpResult.raised =>
        Except.ok (concatenate meshes, [(false, cleaned_meshes)])

/-- Embedding of the carving pattern used inside `generate_post.build_post`
(stl_generator.py lines 517-524 for flats and 539-546 for join-pin
holes): try `post_mesh.difference(cutter)`; keep the result only when it
is neither `None` nor empty, otherwise keep the prior mesh. -/
def attempt_difference (difference : Trimesh → Trimesh → BoolOpResult)
    (post_mesh cutter : Trimesh) : Trimesh :=
  match difference post_mesh cutter with
  | BoolOpResult.mesh new_mesh =>
      if 0 < new_mesh.faces.length then new_mesh else post_mesh
  | BoolOpResult.returnedNone => post_mesh
  | BoolOpResult.raised => post_mesh

/-- A small concrete triangle mesh used as a witness input. -/
def triA : Trimesh := ⟨[(0, 0, 0), (1, 0, 0), (0, 1, 0)], [(0, 1, 2)]⟩

/-- A second concrete triangle mesh used as a witness input. -/
def triB : Trimesh := ⟨[(0, 0, 1), (1, 0, 1), (0, 1, 1)], [(0, 1, 2)]⟩

/-- A third concrete triangle mesh used as a witness input. -/
def triC : Trimesh := ⟨[(0, 0, 2), (1, 0, 2), (0, 1, 2)], [(0, 1, 2)]⟩

/-- Claim C1 (counterexample): with no boolean backend configured, a union
of three meshes does not return their concatenation with a warning - it
raises the `RuntimeError` from `_get_boolean_engine`. -/
theorem C1_counterexample :
    union_meshes [] (fun m => m) (fun _ _ => BoolOpResult.raised) [triA, triB, triC]
      = Except.error "manifold boolean engine not available. Install manifold3d." := by
  rfl

/-- Claim C1 (amended): whenever `"manifold"` is not among the available
backend engines and the input list is non-empty, `_union_meshes` raises
the `RuntimeError` from `_get_boolean_engine`; the non-boolean
concatenation branch for a missing engine is unreachable. -/
theorem C1_no_engine_raises (engines_available : List String)
    (clean : Trimesh → Trimesh) (booleanUnion : Bool → List Trimesh → BoolOpResult)
    (meshes : List Trimesh)
    (hengine : "manifold" ∉ engines_available) (hnonempty : meshes ≠ []) :
    union_meshes engines_available clean booleanUnion meshes
      = Except.error "manifold boolean engine not available. Install manifold3d." := by
  simp [union_meshes, get_boolean_engine, hengine, hnonempty]

/-- Witness for `C1_no_engine_raises` at a concrete input. -/
theorem C1_no_engine_raises_witness :
    ("manifold" ∉ ([] : List String) ∧ ([triA] : List Trimesh) ≠ []) ∧
    union_meshes [] (fun m => m) (fun _ _ => BoolOpResult.raised) [triA]
      = Except.error "manifold boolean engine not available. Install manifold3d." :=
  ⟨⟨by simp, by simp⟩,
   C1_no_engine_raises [] (fun m => m) (fun _ _ => BoolOpResult.raised) [triA]
     (by simp) (by simp)⟩

/-- A degenerate one-face mesh (its single face repeats vertex 0), used to
exercise the cleaning pass. -/
def triDegenerate : Trimesh := ⟨[(0, 0, 0), (1, 0, 0), (0, 1, 0)], [(0, 0, 1)]⟩

/-- A concrete stand-in for `_prepare_mesh_for_boolean`: drop faces that
repeat a vertex index (degenerate faces). -/
def exampleClean (m : Trimesh) : Trimesh :=
  { vertices := m.vertices
    faces := m.faces.filter (fun f => !(f.1 = f.2.1 || f.2.1 = f.2.2 || f.1 = f.2.2)) }

/-- A backend oracle that returns an empty mesh from every union attempt. -/
def emptyUnionBackend : Bool → List Trimesh → BoolOpResult :=
  fun _ _ => BoolOpResult.mesh ⟨[], []⟩

/-- Claim C5 (counterexample): when the first boolean union returns an
empty mesh, the exact-mode retry is invoked on the original input list,
not on the cleaned copies - here the retry receives `[triDegenerate]`
although its cleaned copy differs from it. -/
theorem C5_counterexample :
    union_meshes ["manifold"] exampleClean emptyUnionBackend [triDegenerate]
      = Except.ok (concatenate [triDegenerate],
          [(false, [exampleClean triDegenerate]), (true, [triDegenerate])]) ∧
    [triDegenerate] ≠ [exampleClean triDegenerate] := by
  constructor
  · rfl
  · decide

/-- Claim C5 (amended): for every non-empty input list with the backend
configured, the first boolean union attempt operates on the cleaned
copies of the inputs, and the exact-mode retry (when it happens) operates
on the original, uncleaned input meshes. -/
theorem C5_first_attempt_cleaned_retry_raw (clean : Trimesh → Trimesh)
    (booleanUnion : Bool → List Trimesh → BoolOpResult)
    (meshes : List Trimesh) (hnonempty : meshes ≠ []) :
    ∃ result trace,
      union_meshes ["manifold"] clean booleanUnion meshes = Except.ok (result, trace) ∧
      trace.head? = some (false, meshes.map clean) ∧
      ∀ attempt ∈ trace.tail, attempt = (true, meshes) := by
  simp only [union_meshes, get_boolean_engine, hnonempty, if_neg, List.mem_singleton,
    if_pos rfl]
  cases h1 : booleanUnion false (meshes.map clean) with
  | mesh unioned =>
    by_cases hfaces : 0 < unioned.faces.length
    · exact ⟨unioned, [(false, meshes.map clean)], by simp [hfaces], rfl, by simp⟩
    · cases h2 : booleanUnion true meshes with
      | mesh unioned2 =>
        by_cases hfaces2 : 0 < unioned2.faces.length
        · exact ⟨unioned2, [(false, meshes.map clean), (true, meshes)],
            by simp [hfaces, hfaces2], rfl, by simp⟩
        · exact ⟨concatenate meshes, [(false, meshes.map clean), (true, meshes)],
            by simp [hfaces, hfaces2], rfl, by simp⟩
      | returnedNone => exact ⟨concatenate meshes, [(false, meshes.map clean), (true, meshes)],
          by simp [hfaces], rfl, by simp⟩
      | raised => exact ⟨concatenate meshes, [(false, meshes.map clean), (true, meshes)],
          by simp [hfaces], rfl, by simp⟩
  | returnedNone =>
    cases h2 : booleanUnion true meshes with
    | mesh unioned2 =>
      by_cases hfaces2 : 0 < unioned2.faces.length
      · exact ⟨unioned2, [(false, meshes.map clean), (true, meshes)],
          by simp [hfaces2], rfl, by simp⟩
      · exact ⟨concatenate meshes, [(false, meshes.map clean), (true, meshes)],
          by simp [hfaces2], rfl, by simp⟩
    | returnedNone => exact ⟨concatenate meshes, [(false, meshes.map clean), (true, meshes)],
        by simp, rfl, by simp⟩
    | raised => exact ⟨concatenate meshes, [(false, meshes.map clean), (true, meshes)],
        by simp, rfl, by simp⟩
  | raised => exact ⟨concatenate meshes, [(false, meshes.map clean)], by simp, rfl, by simp⟩

/-- Witness for `C5_first_attempt_cleaned_retry_raw` at a concrete input. -/
theorem C5_first_attempt_cleaned_retry_raw_witness :
    (([triDegenerate] : List Trimesh) ≠ []) ∧
    ∃ result trace,
      union_meshes ["manifold"] exampleClean emptyUnionBackend [triDegenerate]
        = Except.ok (result, trace) ∧
      trace.head? = some (false, [triDegenerate].map exampleClean) ∧
      ∀ attempt ∈ trace.tail, attempt = (true, [triDegenerate]) :=
  ⟨by simp,
   C5_first_attempt_cleaned_retry_raw exampleClean emptyUnionBackend [triDegenerate] (by simp)⟩

/-- Claim C7: whenever the difference (carving) operation raises, returns
`None`, or returns an empty mesh, the post mesh held by the caller is
exactly the mesh from before that carving attempt. -/
theorem C7_carve_failure_keeps_mesh (difference : Trimesh → Trimesh → BoolOpResult)
    (post_mesh cutter : Trimesh)
    (hfail : ∀ m, difference post_mesh cutter = BoolOpResult.mesh m → m.faces = []) :
    attempt_difference difference post_mesh cutter = post_mesh := by
  unfold attempt_difference
  cases h : difference post_mesh cutter with
  | mesh new_mesh => simp [hfail new_mesh h]
  | returnedNone => rfl
  | raised => rfl

/-- Witness for `C7_carve_failure_keeps_mesh`: a difference call that
raises leaves the post mesh unchanged. -/
theorem C7_carve_failure_keeps_mesh_witness :
    attempt_difference (fun _ _ => BoolOpResult.raised) triA triB = triA :=
  C7_carve_failure_keeps_mesh (fun _ _ => BoolOpResult.raised) triA triB
    (fun _ h => nomatch h)

/-- The subset of `DirectionSignGenerator` configuration fields the core
algorithms read (constructor, stl_generator.py lines 26-166). -/
structure GenCfg where
  post_height : ℚ
  post_radius : ℚ
  flat_height : ℚ
  sign_clearance : ℚ
  max_sign_length : ℚ
  min_font_size : ℚ
  max_font_size : ℚ
  sign_vertical_spacing : ℚ
  id_pin_spacing : ℚ
deriving DecidableEq, Repr

/-- Embedding of `DirectionSignGenerator.__init__` for the fields above:
every field is stored verbatim except `post_height`, which is stored as
`min(post_height, 180.0)` (stl_generator.py line 124). -/
def GenCfg.init (post_height post_radius flat_height sign_clearance max_sign_length
    min_font_size max_font_size sign_vertical_spacing id_pin_spacing : ℚ) : GenCfg :=
  { post_height := min post_height 180
    post_radius := post_radius
    flat_height := flat_height
    sign_clearance := sign_clearance
    max_sign_length := max_sign_length
    min_font_size := min_font_size
    max_font_size := max_font_size
    sign_vertical_spacing := sign_vertical_spacing
    id_pin_spacing := id_pin_spacing }

/-- The constructor defaults of `DirectionSignGenerator` for the embedded
fields (post_height 180, post_radius 10, flat_height 28,
sign_clearance 0.5, max_sign_length 200, min_font_size 10,
max_font_size 20, sign_vertical_spacing 8, id_pin_spacing 3). -/
def defaultCfg : GenCfg := GenCfg.init 180 10 28 0.5 200 10 20 8 3

/-- Embedding of `generate_post`'s piece-height computation
(stl_generator.py line 555): `max(self.post_height, segment_height)`
with `segment_height = flat_height + sign_vertical_spacing` (line 469). -/
def generate_post_piece_height (cfg : GenCfg) : ℚ :=
  max cfg.post_height (cfg.flat_height + cfg.sign_vertical_spacing)

/-- Claim C9: the stored post height equals `min(requested, 180.0)` - a
requested height above 180 is silently reduced - and the piece height
used by post generation equals `max(stored, flat_height + spacing)`. -/
theorem C9_post_height_clamp (post_height post_radius flat_height sign_clearance
    max_sign_length min_font_size max_font_size sign_vertical_spacing id_pin_spacing : ℚ) :
    (GenCfg.init post_height post_radius flat_height sign_clearance max_sign_length
        min_font_size max_font_size sign_vertical_spacing id_pin_spacing).post_height
      = min post_height 180 ∧
    generate_post_piece_height
        (GenCfg.init post_height post_radius flat_height sign_clearance max_sign_length
          min_font_size max_font_size sign_vertical_spacing id_pin_spacing)
      = max (min post_height 180) (flat_height + sign_vertical_spacing) ∧
    (180 < post_height →
      (GenCfg.init post_height post_radius flat_height sign_clearance max_sign_length
          min_font_size max_font_size sign_vertical_spacing id_pin_spacing).post_height
        < post_height) := by
  refine ⟨rfl, rfl, fun h => ?_⟩
  simpa [GenCfg.init] using lt_of_le_of_lt (min_le_right post_height 180) h

/-- Witness for `C9_post_height_clamp`: a requested 250-unit post is
stored as 180 units. -/
theorem C9_post_height_clamp_witness :
    ((180 : ℚ) < 250) ∧
    (GenCfg.init 250 10 28 0.5 200 10 20 8 3).post_height < 250 :=
  ⟨by norm_num, (C9_post_height_clamp 250 10 28 0.5 200 10 20 8 3).2.2 (by norm_num)⟩

/-- Embedding of `generate_post.max_slots_per_post`
(stl_generator.py lines 475-479), with the enclosing function's
`segment_height = self.flat_height + sign_vertical_spacing` (line 469):
`usable = post_height - spacing - flat_height`; return 1 when
`usable <= 0`, else `max(1, floor(usable / segment_height) + 1)`. -/
def max_slots_per_post (flat_height sign_vertical_spacing post_height : ℚ) : ℤ :=
  let segment_height := flat_height + sign_vertical_spacing
  let usable := post_height - sign_vertical_spacing - flat_height
  if usable ≤ 0 then 1 else max 1 (⌊usable / segment_height⌋ + 1)

/-- Embedding of the slot split in `generate_post`
(stl_generator.py lines 481-484): the upper piece takes the first
`min(len(entries), upper_capacity)` entries, the lower piece takes all
remaining entries. -/
def split_entries {α : Type} (entries : List α) (upper_capacity : ℤ) : List α × List α :=
  let split_index := min entries.length upper_capacity.toNat
  (entries.take split_index, entries.drop split_index)

/-- Embedding of `generate_post.slot_centers`
(stl_generator.py lines 486-490): the topmost slot center sits at
`post_height - spacing/2 - flat_height/2` and each next center is one
`segment_height` lower; an empty list for a non-positive count. -/
def slot_centers (flat_height sign_vertical_spacing post_height : ℚ) (count : ℕ) : List ℚ :=
  let sign_gap_half := sign_vertical_spacing / 2
  let segment_height := flat_height + sign_vertical_spacing
  let top_center := post_height - sign_gap_half - flat_height / 2
  (List.range count).map (fun (i : ℕ) => top_center - (i : ℚ) * segment_height)

/-- With the default dimensions the upper-piece capacity evaluates to 5. -/
lemma max_slots_default : max_slots_per_post 28 8 180 = 5 := by
  simp only [max_slots_per_post]
  rw [if_neg (by norm_num)]
  rw [show (180 : ℚ) - 8 - 28 = ((4 : ℤ) : ℚ) * (28 + 8) by norm_num]
  rw [mul_div_assoc, div_self (by norm_num), mul_one, Int.floor_intCast]
  rfl

/-- With the default dimensions the six lower-piece slot centers evaluate
to 162, 126, 90, 54, 18 and -18. -/
lemma slot_centers_default :
    slot_centers 28 8 180 6 = [162, 126, 90, 54, 18, -18] := by
  simp only [slot_centers]
  rw [show List.range 6 = [0, 1, 2, 3, 4, 5] from rfl]
  simp only [List.map]
  norm_num

/-- Claim C2: for a positive segment pitch the computed slot capacity
equals `max(1, floor((h - s - f) / (f + s)) + 1)`; with the default
dimensions `capacity(180, 28, 8) = 5`, and a 7-slot list splits into an
upper piece of 5 slots and a lower piece of the remaining 2. -/
theorem C2_capacity_formula :
    (∀ post_height flat_height sign_vertical_spacing : ℚ,
        0 < flat_height + sign_vertical_spacing →
        max_slots_per_post flat_height sign_vertical_spacing post_height
          = max 1 (⌊(post_height - sign_vertical_spacing - flat_height)
              / (flat_height + sign_vertical_spacing)⌋ + 1)) ∧
    max_slots_per_post 28 8 180 = 5 ∧
    split_entries [10, 20, 30, 40, 50, 60, 70] (max_slots_per_post 28 8 180)
      = ([10, 20, 30, 40, 50], [60, 70]) := by
  refine ⟨fun post_height flat_height sign_vertical_spacing hpitch => ?_,
    max_slots_default, by rw [max_slots_default]; try rfl⟩
  unfold max_slots_per_post
  by_cases husable : post_height - sign_vertical_spacing - flat_height ≤ 0
  · rw [if_pos husable]
    have hdiv : (post_height - sign_vertical_spacing - flat_height)
        / (flat_height + sign_vertical_spacing) ≤ 0 :=
      div_nonpos_iff.mpr (Or.inr ⟨husable, le_of_lt hpitch⟩)
    have hfloor : ⌊(post_height - sign_vertical_spacing - flat_height)
        / (flat_height + sign_vertical_spacing)⌋ ≤ 0 := Int.floor_nonpos hdiv
    omega
  · rw [if_neg husable]

/-- Witness for `C2_capacity_formula` at the default dimensions. -/
theorem C2_capacity_formula_witness :
    ((0 : ℚ) < 28 + 8) ∧
    max_slots_per_post 28 8 180
      = max 1 (⌊((180 : ℚ) - 8 - 28) / (28 + 8)⌋ + 1) :=
  ⟨by norm_num, C2_capacity_formula.1 180 28 8 (by norm_num)⟩

/-- Claim C10: post generation always splits the input into exactly two
pieces - the upper piece takes the first `min(length, upperCapacity)`
slots and the lower piece takes all remaining slots with no capacity
check - and slot centers are computed for every remaining slot; with the
default dimensions an 11-slot list leaves 6 slots on the lower piece
(capacity 5) whose last computed center, -18, lies below the bottom of
the piece. -/
theorem C10_two_piece_split :
    (∀ (entries : List ℚ) (flat_height sign_vertical_spacing post_height : ℚ),
        (split_entries entries
            (max_slots_per_post flat_height sign_vertical_spacing post_height)).1
          ++ (split_entries entries
            (max_slots_per_post flat_height sign_vertical_spacing post_height)).2
          = entries ∧
        (split_entries entries
            (max_slots_per_post flat_height sign_vertical_spacing post_height)).1.length
          = min entries.length
              (max_slots_per_post flat_height sign_vertical_spacing post_height).toNat ∧
        (slot_centers flat_height sign_vertical_spacing post_height
            (split_entries entries
              (max_slots_per_post flat_height sign_vertical_spacing post_height)).2.length).length
          = (split_entries entries
              (max_slots_per_post flat_height sign_vertical_spacing post_height)).2.length) ∧
    ((split_entries [0, 30, 60, 90, 120, 150, 210, 240, 270, 300, 330]
        (max_slots_per_post 28 8 180)).2.length = 6 ∧
      (max_slots_per_post 28 8 180).toNat = 5 ∧
      (slot_centers 28 8 180 6).getLastD 1 = -18 ∧
      ((-18 : ℚ) ≤ 0)) := by
  refine ⟨fun entries flat_height sign_vertical_spacing post_height => ?_,
    by rw [max_slots_default]; try rfl, by rw [max_slots_default]; try rfl,
    by rw [slot_centers_default]; try rfl, by norm_num⟩
  refine ⟨List.take_append_drop _ _, ?_, ?_⟩
  · simp [split_entries]
  · unfold slot_centers
    rw [List.length_map, List.length_range]

/-- Embedding of the pin-selection logic of
`DirectionSignGenerator._create_id_pins_at_bearing`
(stl_generator.py lines 378-410): validate `segment_id` (raise for
values outside 1..15), then place a pin at fixed offset
`(-1.5, -0.5, 0.5, 1.5)[i] * id_pin_spacing` exactly when bit `i` of
`segment_id` is set.  The returned list holds the offsets at which pins
are created. -/
def create_id_pins_offsets (id_pin_spacing : ℚ) (segment_id : ℤ) :
    Except String (List ℚ) :=
  if segment_id ≤ 0 ∨ 15 < segment_id then
    Except.error ("segment_id must be 1-15, got " ++ toString segment_id)
  else
    let pin_offsets : List ℚ :=
      [-1.5 * id_pin_spacing, -0.5 * id_pin_spacing,
        0.5 * id_pin_spacing, 1.5 * id_pin_spacing]
    Except.ok (pin_offsets.enum.filterMap
      (fun bp => if segment_id.toNat.testBit bp.1 then some bp.2 else none))

/-- Embedding of the hole-selection logic of
`DirectionSignGenerator._create_id_holes_for_sign`
(stl_generator.py lines 412-439): the same validation, the same fixed
offset list and the same bit test select the hole positions on the sign
backside. -/
def create_id_holes_offsets (id_pin_spacing : ℚ) (segment_id : ℤ) :
    Except String (List ℚ) :=
  if segment_id ≤ 0 ∨ 15 < segment_id then
    Except.error ("segment_id must be 1-15, got " ++ toString segment_id)
  else
    let pin_offsets : List ℚ :=
      [-1.5 * id_pin_spacing, -0.5 * id_pin_spacing,
        0.5 * id_pin_spacing, 1.5 * id_pin_spacing]
    Except.ok (pin_offsets.enum.filterMap
      (fun bp => if segment_id.toNat.testBit bp.1 then some bp.2 else none))

/-- Claim C3: for every segmentId in 1..15 the pin offsets chosen for a
post slot equal the hole offsets chosen for a sign plate with the same
segmentId, and both equal the fixed offset list filtered by the bits of
the segmentId (round-trip: encode(id) on post = encode(id) on sign). -/
theorem C3_pin_hole_roundtrip (id_pin_spacing : ℚ) (segment_id : ℤ)
    (h1 : 1 ≤ segment_id) (h15 : segment_id ≤ 15) :
    create_id_pins_offsets id_pin_spacing segment_id
      = create_id_holes_offsets id_pin_spacing segment_id ∧
    create_id_pins_offsets id_pin_spacing segment_id
      = Except.ok (([-1.5 * id_pin_spacing, -0.5 * id_pin_spacing,
            0.5 * id_pin_spacing, 1.5 * id_pin_spacing] : List ℚ).enum.filterMap
          (fun bp => if segment_id.toNat.testBit bp.1 then some bp.2 else none)) := by
  have hguard : ¬(segment_id ≤ 0 ∨ 15 < segment_id) := by omega
  exact ⟨rfl, by simp only [create_id_pins_offsets, if_neg hguard]⟩

/-- Witness for `C3_pin_hole_roundtrip` at segmentId 5 and the default
pin spacing 3. -/
theorem C3_pin_hole_roundtrip_witness :
    ((1 : ℤ) ≤ 5 ∧ (5 : ℤ) ≤ 15) ∧
    create_id_pins_offsets 3 5 = create_id_holes_offsets 3 5 :=
  ⟨⟨by norm_num, by norm_num⟩,
   (C3_pin_hole_roundtrip 3 5 (by norm_num) (by norm_num)).1⟩

/-- Claim C4: for every segmentId <= 0 both the binary pin generator and
the binary hole generator raise the validation error, so no mesh (no
offset list) is produced. -/
theorem C4_nonpositive_id_raises (id_pin_spacing : ℚ) (segment_id : ℤ)
    (h : segment_id ≤ 0) :
    create_id_pins_offsets id_pin_spacing segment_id
      = Except.error ("segment_id must be 1-15, got " ++ toString segment_id) ∧
    create_id_holes_offsets id_pin_spacing segment_id
      = Except.error ("segment_id must be 1-15, got " ++ toString segment_id) := by
  constructor
  · simp only [create_id_pins_offsets, if_pos (Or.inl h)]
  · simp only [create_id_holes_offsets, if_pos (Or.inl h)]

/-- Witness for `C4_nonpositive_id_raises` at segmentId 0. -/
theorem C4_nonpositive_id_raises_witness :
    ((0 : ℤ) ≤ 0) ∧
    create_id_pins_offsets 3 0
      = Except.error ("segment_id must be 1-15, got " ++ toString (0 : ℤ)) :=
  ⟨le_refl 0, (C4_nonpositive_id_raises 3 0 (le_refl 0)).1⟩

/-- Embedding of the dart-blank vertex list built by `generate_sign` for
arrowed plates (stl_generator.py lines 1257-1272 and the point-left
mirroring at line 1287): square attachment face at X=0, rectangular body
to `body_length`, two tip vertices at `sign_length`; when the plate
points left every vertex is mirrored as `sign_length - x`. -/
def dart_vertices (sign_length sign_height sign_thickness point_length : ℚ)
    (point_left : Bool) : List (ℚ × ℚ × ℚ) :=
  let body_length := sign_length - point_length
  let tip_y := sign_height / 2
  let vertices : List (ℚ × ℚ × ℚ) :=
    [(0, 0, 0), (0, sign_height, 0), (0, sign_height, sign_thickness),
      (0, 0, sign_thickness),
      (body_length, 0, 0), (body_length, sign_height, 0),
      (body_length, sign_height, sign_thickness), (body_length, 0, sign_thickness),
      (sign_length, tip_y, 0), (sign_length, tip_y, sign_thickness)]
  if point_left then vertices.map (fun v => (sign_length - v.1, v.2.1, v.2.2))
  else vertices

/-- Embedding of the dart-blank face list built by `generate_sign` for
arrowed plates (stl_generator.py lines 1275-1288): ten body triangles,
two tip cap triangles and four tip side triangles; when the plate points
left each triangle's winding is reversed. -/
def dart_faces (point_left : Bool) : List (ℕ × ℕ × ℕ) :=
  let faces : List (ℕ × ℕ × ℕ) :=
    [(0, 2, 1), (0, 3, 2), (0, 1, 5), (0, 5, 4), (3, 6, 2), (3, 7, 6),
      (0, 4, 7), (0, 7, 3), (1, 2, 6), (1, 6, 5),
      (4, 5, 8), (7, 9, 6),
      (4, 8, 9), (4, 9, 7), (5, 6, 9), (5, 9, 8)]
  if point_left then faces.map (fun f => (f.2.2, f.2.1, f.1)) else faces

/-- Claim C6 (counterexample): the dart blank's face list has 16
triangles, not the 18 the specification states. -/
theorem C6_counterexample :
    (dart_faces false).length = 16 ∧ (dart_faces false).length ≠ 18 := by
  constructor <;> decide

/-- Claim C6 (amended): for every arrow-shaped sign plate the dart blank
is built directly from a fixed topology of exactly 10 vertices and
exactly 16 triangular faces (square attachment face, rectangular body,
triangular point), in both the point-right and point-left orientations. -/
theorem C6_dart_topology (sign_length sign_height sign_thickness point_length : ℚ)
    (point_left : Bool) :
    (dart_vertices sign_length sign_height sign_thickness point_length
        point_left).length = 10 ∧
    (dart_faces point_left).length = 16 := by
  cases point_left <;> exact ⟨rfl, rfl⟩

/-- Text is modeled as a list of characters; Python `str.strip()`:
drop whitespace from both ends. -/
def trim_text (s : List Char) : List Char :=
  ((s.dropWhile Char.isWhitespace).reverse.dropWhile Char.isWhitespace).reverse

/-- Helper for `text_words`: accumulate the current word (reversed) while
scanning. -/
def words_aux : List Char → List Char → List (List Char)
  | [], acc => if acc.isEmpty then [] else [acc.reverse]
  | c :: cs, acc =>
    if c.isWhitespace then
      if acc.isEmpty then words_aux cs [] else acc.reverse :: words_aux cs []
    else words_aux cs (c :: acc)

/-- Python `str.split()` with no argument: split on whitespace runs,
discarding empty parts. -/
def text_words (s : List Char) : List (List Char) := words_aux s []

/-- Python `" ".join(parts)`. -/
def join_words : List (List Char) → List Char
  | [] => []
  | [w] => w
  | w :: ws => w ++ ' ' :: join_words ws

/-- Embedding of `DirectionSignGenerator._split_distance_text`
(stl_generator.py lines 441-448): an empty text yields two empty parts;
with at least two whitespace-separated parts the last one is the units
and the rest joined is the value; otherwise the stripped text is the
value with empty units. -/
def split_distance_text (distance_text : List Char) : List Char × List Char :=
  if distance_text.isEmpty then ([], [])
  else
    let parts := text_words (trim_text distance_text)
    if 2 ≤ parts.length then (join_words parts.dropLast, parts.getLastD [])
    else (trim_text distance_text, [])

/-- The mutable layout state of `generate_sign`'s fitting loop: current
main font size, current distance font size, current units font size. -/
structure FitState where
  font_size : ℚ
  distance_font_size : ℚ
  units_font_size : ℚ
deriving DecidableEq, Repr

/-- Embedding of `generate_sign.compute_distance_width`
(stl_generator.py lines 1163-1166): width factor 0.6 for both rows and a
2-unit margin, taking the wider of the value and units rows. -/
def compute_distance_width (distance_value distance_units : List Char)
    (distance_font_size units_font_size : ℚ) : ℚ :=
  let value_width := (distance_value.length : ℚ) * distance_font_size * 0.6
  let units_width := (distance_units.length : ℚ) * units_font_size * 0.6
  max value_width units_width + 2

/-- Embedding of `generate_sign.compute_required_body_length`
(stl_generator.py lines 1186-1187) together with the width
recomputations feeding it: `attach_pad + name_width + gap +
distance_width + tip_padding`, with name width factor 0.65 and
tip padding 3. -/
def required_body_length (main_text_len : ℕ) (distance_value distance_units : List Char)
    (has_distance : Bool) (attach_pad effective_gap : ℚ) (st : FitState) : ℚ :=
  let main_text_width := (main_text_len : ℚ) * st.font_size * 0.65
  let distance_width :=
    if has_distance then
      compute_distance_width distance_value distance_units
        st.distance_font_size st.units_font_size
    else 0
  attach_pad + main_text_width + effective_gap + distance_width + 3

/-- One iteration of `generate_sign`'s font-reduction loop body
(stl_generator.py lines 1204-1211): while the main font is above its
12-unit floor shrink it by 0.5, otherwise shrink the distance font by
0.5 down to its 5-unit floor; then cap the distance font at 0.65 of the
main font and recompute the units font. -/
def fit_step (st : FitState) : FitState :=
  let font_size :=
    if 12 < st.font_size then max 12 (st.font_size - 0.5) else st.font_size
  let dfs0 :=
    if 12 < st.font_size then st.distance_font_size
    else max 5 (st.distance_font_size - 0.5)
  let distance_font_size := min dfs0 (font_size * 0.65)
  let units_font_size := max 5 (distance_font_size * 0.85)
  ⟨font_size, distance_font_size, units_font_size⟩

/-- Embedding of `generate_sign`'s `while` loop
(stl_generator.py line 1204): iterate `fit_step` while the required body
length exceeds the available body length and a font is above its floor.
The loop is given explicit fuel; the caller passes more fuel than the
source loop can iterate (each iteration lowers the main font by 0.5
toward 12 or the distance font by 0.5 toward 5), so the embedding exits
through the loop condition exactly as the source does. -/
def fit_loop (main_text_len : ℕ) (distance_value distance_units : List Char)
    (has_distance : Bool) (attach_pad effective_gap body_length : ℚ) :
    ℕ → FitState → FitState
  | 0, st => st
  | fuel + 1, st =>
    if body_length < required_body_length main_text_len distance_value distance_units
          has_distance attach_pad effective_gap st
        ∧ (12 < st.font_size ∨ 5 < st.distance_font_size) then
      fit_loop main_text_len distance_value distance_units has_distance attach_pad
        effective_gap body_length fuel (fit_step st)
    else st

/-- `sign_height = flat_height - 2 * sign_clearance`
(stl_generator.py line 1141). -/
def sign_height_of (cfg : GenCfg) : ℚ := cfg.flat_height - 2 * cfg.sign_clearance

/-- Initial main font size `min(max_font_size, sign_height * 0.8)`
(stl_generator.py line 1147). -/
def initial_font_size (cfg : GenCfg) : ℚ :=
  min cfg.max_font_size (sign_height_of cfg * 0.8)

/-- Initial distance font size (stl_generator.py lines 1150-1153):
`min(max_font_size * 0.5, sign_height * 0.38)`, capped at 0.65 of the
main font, floored at 5. -/
def initial_distance_font_size (cfg : GenCfg) : ℚ :=
  max 5 (min (min (cfg.max_font_size * 0.5) (sign_height_of cfg * 0.38))
    (initial_font_size cfg * 0.65))

/-- The layout state entering the fitting phase (stl_generator.py lines
1147-1154), including the initial units font
`max(5, distance_font * 0.85)`. -/
def initial_fit_state (cfg : GenCfg) : FitState :=
  ⟨initial_font_size cfg, initial_distance_font_size cfg,
    max 5 (initial_distance_font_size cfg * 0.85)⟩

/-- `text_gap = max(10, 16 - max(0, main_text_len - 6) * 1.2)`
(stl_generator.py line 1179); natural-number subtraction models the
`max(0, ...)`. -/
def text_gap_of (main_text_len : ℕ) : ℚ :=
  max 10 (16 - ((main_text_len - 6 : ℕ) : ℚ) * 1.2)

/-- The layout committed by `generate_sign`: font sizes and plate length. -/
structure SignLayout where
  font_size : ℚ
  distance_font_size : ℚ
  units_font_size : ℚ
  sign_length : ℚ
deriving DecidableEq, Repr

/-- The sizing branch of `generate_sign`
(stl_generator.py lines 1196-1224): when the required body length
exceeds the available one, run the font-reduction loop; otherwise the
fonts are unchanged.  The fuel passed to `fit_loop` exceeds the number
of iterations the source loop can make. -/
def sizing_branch (main_text_len : ℕ) (distance_value distance_units : List Char)
    (has_distance : Bool) (attach_pad effective_gap body_length : ℚ)
    (st0 : FitState) : FitState :=
  if body_length < required_body_length main_text_len distance_value distance_units
      has_distance attach_pad effective_gap st0 then
    fit_loop main_text_len distance_value distance_units has_distance attach_pad
      effective_gap body_length
      (⌈(st0.font_size - 12) * 2⌉.toNat + ⌈(st0.distance_font_size - 5) * 2⌉.toNat + 2) st0
  else st0

/-- The layout state after `generate_sign`'s sizing branch: the layout
inputs derived from the sign request feed `sizing_branch` starting from
the initial layout state. -/
def fitted_state (cfg : GenCfg) (text distance : List Char) (bearing : ℚ)
    (arrowed : Bool) : FitState :=
  let point_left : Bool := if arrowed then decide (180 < bearing) else false
  let point_length := if arrowed then sign_height_of cfg * 0.5 else 0
  let p := split_distance_text distance
  let has_distance : Bool := !p.1.isEmpty
  let main_text_len := (text.map Char.toUpper).length
  let attach_pad : ℚ := if point_left then 14 else 10
  let effective_gap := if has_distance then text_gap_of main_text_len else 0
  let body_length := cfg.max_sign_length - point_length
  sizing_branch main_text_len p.1 p.2 has_distance attach_pad effective_gap body_length
    (initial_fit_state cfg)

/-- Embedding of `generate_sign`'s layout computation
(stl_generator.py lines 1135-1246): initial sizing, the shrink branch or
the font-reduction loop, the final distance-font cap
`min(distance_font, font * 0.65)` (line 1226, before the main-font
clamp), the main-font clamp into `[min_font_size, max_font_size]`
(line 1232), the 60-unit length floor (line 1235) and the final
shrink-to-fit (lines 1242-1246, using the pre-clamp main font width as
the source does). -/
def generate_sign_layout (cfg : GenCfg) (text distance : List Char) (bearing : ℚ)
    (arrowed : Bool) : SignLayout :=
  let point_left : Bool := if arrowed then decide (180 < bearing) else false
  let point_length := if arrowed then sign_height_of cfg * 0.5 else 0
  let p := split_distance_text distance
  let has_distance : Bool := !p.1.isEmpty
  let main_text_len := (text.map Char.toUpper).length
  let attach_pad : ℚ := if point_left then 14 else 10
  let effective_gap := if has_distance then text_gap_of main_text_len else 0
  let st0 := initial_fit_state cfg
  let sign_length0 := cfg.max_sign_length
  let body_length0 := sign_length0 - point_length
  let required0 := required_body_length main_text_len p.1 p.2 has_distance
    attach_pad effective_gap st0
  let st1 := fitted_state cfg text distance bearing arrowed
  let sign_length1 :=
    if required0 < body_length0 then
      if required0 + point_length < sign_length0 then max 60 (required0 + point_length)
      else sign_length0
    else sign_length0
  let distance_font_size := min st1.distance_font_size (st1.font_size * 0.65)
  let units_font_size := max 5 (distance_font_size * 0.85)
  let font_size := max cfg.min_font_size (min st1.font_size cfg.max_font_size)
  let sign_length2 := if sign_length1 < 60 then 60 else sign_length1
  let body_length2 := sign_length2 - point_length
  let required2 := required_body_length main_text_len p.1 p.2 has_distance attach_pad
    effective_gap ⟨st1.font_size, distance_font_size, units_font_size⟩
  let sign_length3 :=
    if required2 < body_length2 then max 60 (required2 + point_length) else sign_length2
  ⟨font_size, distance_font_size, units_font_size, sign_length3⟩

/-- Invariant of the fitting loop: the main font stays in `[12, f0]` and
the distance font stays in `[5, cap]`. -/
def FitInv (f0 cap : ℚ) (st : FitState) : Prop :=
  12 ≤ st.font_size ∧ st.font_size ≤ f0 ∧
  5 ≤ st.distance_font_size ∧ st.distance_font_size ≤ cap

/-- One `fit_step` preserves the fitting-loop invariant. -/
lemma fit_step_preserves (f0 cap : ℚ) (st : FitState) (hf0 : 12 ≤ f0)
    (h : FitInv f0 cap st) : FitInv f0 cap (fit_step st) := by
  obtain ⟨h1, h2, h3, h4⟩ := h
  unfold FitInv fit_step
  by_cases hc : 12 < st.font_size
  · simp only [if_pos hc]
    have hfnew : (12 : ℚ) ≤ max 12 (st.font_size - 0.5) := le_max_left _ _
    refine ⟨hfnew, max_le hf0 (by linarith), le_min h3 ?_, le_trans (min_le_left _ _) h4⟩
    nlinarith [hfnew]
  · simp only [if_neg hc]
    refine ⟨h1, h2, le_min (le_max_left _ _) (by nlinarith [h1]), ?_⟩
    exact le_trans (min_le_left _ _) (le_trans (max_le h3 (by linarith)) h4)

/-- The fitting loop preserves the invariant for any fuel. -/
lemma fit_loop_preserves (main_text_len : ℕ) (distance_value distance_units : List Char)
    (has_distance : Bool) (attach_pad effective_gap body_length f0 cap : ℚ)
    (fuel : ℕ) (st : FitState) (hf0 : 12 ≤ f0) (h : FitInv f0 cap st) :
    FitInv f0 cap (fit_loop main_text_len distance_value distance_units has_distance
      attach_pad effective_gap body_length fuel st) := by
  induction fuel generalizing st with
  | zero => exact h
  | succ n ih =>
    unfold fit_loop
    split
    · exact ih _ (fit_step_preserves f0 cap st hf0 h)
    · exact h

/-- The initial layout state satisfies the fitting-loop invariant. -/
lemma initial_fit_state_inv (cfg : GenCfg) (hf0 : 12 ≤ initial_font_size cfg) :
    FitInv (initial_font_size cfg) (initial_distance_font_size cfg)
      (initial_fit_state cfg) :=
  ⟨hf0, le_refl _, le_max_left _ _, le_refl _⟩

/-- The sizing branch preserves the fitting-loop invariant. -/
lemma sizing_branch_inv (main_text_len : ℕ) (distance_value distance_units : List Char)
    (has_distance : Bool) (attach_pad effective_gap body_length f0 cap : ℚ)
    (st0 : FitState) (hf0 : 12 ≤ f0) (h : FitInv f0 cap st0) :
    FitInv f0 cap (sizing_branch main_text_len distance_value distance_units
      has_distance attach_pad effective_gap body_length st0) := by
  unfold sizing_branch
  split
  · exact fit_loop_preserves _ _ _ _ _ _ _ _ _ _ _ hf0 h
  · exact h

/-- The state after the sizing branch satisfies the fitting-loop
invariant. -/
lemma fitted_state_inv (cfg : GenCfg) (text distance : List Char) (bearing : ℚ)
    (arrowed : Bool) (hf0 : 12 ≤ initial_font_size cfg) :
    FitInv (initial_font_size cfg) (initial_distance_font_size cfg)
      (fitted_state cfg text distance bearing arrowed) :=
  sizing_branch_inv _ _ _ _ _ _ _ _ _ _ hf0 (initial_fit_state_inv cfg hf0)

/-- The initial distance font cannot exceed the maximum font size when
the latter is at least 12. -/
lemma initial_distance_font_le_max (cfg : GenCfg) (h12 : 12 ≤ cfg.max_font_size) :
    initial_distance_font_size cfg ≤ cfg.max_font_size := by
  unfold initial_distance_font_size
  exact max_le (by linarith)
    (le_trans (min_le_left _ _) (le_trans (min_le_left _ _) (by linarith)))

set_option maxHeartbeats 1000000 in
/-- Claim C8 (amended): whenever the configuration satisfies
`min_font_size <= max_font_size` and the initial main font
`min(max_font_size, 0.8 * sign_height)` is at least the loop floor 12
(both hold for the defaults), every committed layout has the main font
in `[min_font_size, max_font_size]`, the distance font in
`[5, max_font_size]`, and a plate length of at least 60 length-units. -/
theorem C8_committed_layout_bounds (cfg : GenCfg) (text distance : List Char)
    (bearing : ℚ) (arrowed : Bool)
    (hminmax : cfg.min_font_size ≤ cfg.max_font_size)
    (hf0 : 12 ≤ initial_font_size cfg) :
    cfg.min_font_size ≤ (generate_sign_layout cfg text distance bearing arrowed).font_size ∧
    (generate_sign_layout cfg text distance bearing arrowed).font_size
      ≤ cfg.max_font_size ∧
    5 ≤ (generate_sign_layout cfg text distance bearing arrowed).distance_font_size ∧
    (generate_sign_layout cfg text distance bearing arrowed).distance_font_size
      ≤ cfg.max_font_size ∧
    60 ≤ (generate_sign_layout cfg text distance bearing arrowed).sign_length := by
  have h12max : (12 : ℚ) ≤ cfg.max_font_size := le_trans hf0 (min_le_left _ _)
  have hcap := initial_distance_font_le_max cfg h12max
  obtain ⟨hi1, hi2, hi3, hi4⟩ :=
    fitted_state_inv cfg text distance bearing arrowed hf0
  simp only [generate_sign_layout]
  refine ⟨le_max_left _ _, max_le hminmax (min_le_right _ _), ?_, ?_, ?_⟩
  · exact le_min hi3 (by nlinarith [hi1])
  · exact le_trans (min_le_left _ _) (le_trans hi4 hcap)
  · split_ifs <;> first | exact le_max_left _ _ | linarith

/-- Witness for `C8_committed_layout_bounds` with the default
configuration and a concrete sign. -/
theorem C8_committed_layout_bounds_witness :
    (defaultCfg.min_font_size ≤ defaultCfg.max_font_size ∧
      12 ≤ initial_font_size defaultCfg) ∧
    (defaultCfg.min_font_size
        ≤ (generate_sign_layout defaultCfg ("NEW YORK".toList) ("214 mi".toList)
            90 true).font_size ∧
      (generate_sign_layout defaultCfg ("NEW YORK".toList) ("214 mi".toList)
          90 true).font_size ≤ defaultCfg.max_font_size ∧
      5 ≤ (generate_sign_layout defaultCfg ("NEW YORK".toList) ("214 mi".toList)
            90 true).distance_font_size ∧
      (generate_sign_layout defaultCfg ("NEW YORK".toList) ("214 mi".toList)
          90 true).distance_font_size ≤ defaultCfg.max_font_size ∧
      60 ≤ (generate_sign_layout defaultCfg ("NEW YORK".toList) ("214 mi".toList)
            90 true).sign_length) :=
  ⟨⟨by norm_num [defaultCfg, GenCfg.init],
    by simp only [initial_font_size, sign_height_of, defaultCfg, GenCfg.init, min_def]
       norm_num⟩,
   C8_committed_layout_bounds defaultCfg ("NEW YORK".toList) ("214 mi".toList) 90 true
     (by norm_num [defaultCfg, GenCfg.init])
     (by simp only [initial_font_size, sign_height_of, defaultCfg, GenCfg.init, min_def]
         norm_num)⟩

/-- A configuration with a short flat (flat_height 6), on which the
committed distance font falls below its documented 5-unit floor. -/
def cexCfg : GenCfg := GenCfg.init 180 10 6 0.5 200 10 20 8 3

/-- Claim C8 (counterexample): with constructor parameters
flat_height 6, sign_clearance 0.5, max_font_size 20, the committed
distance font size of a plate for label "A" with distance "214 mi" is
13/5 = 2.6, below the documented minimum of 5. -/
theorem C8_counterexample :
    (generate_sign_layout cexCfg ("A".toList) ("214 mi".toList) 0 true).distance_font_size
        = 13 / 5 ∧
    ¬(5 ≤ (generate_sign_layout cexCfg ("A".toList) ("214 mi".toList)
        0 true).distance_font_size) := by
  have hsplit : split_distance_text ("214 mi".toList) = ("214".toList, "mi".toList) := rfl
  have hlen1 : (("A".toList).map Char.toUpper).length = 1 := rfl
  have hlenv : ("214".toList).length = 3 := rfl
  have hlenu : ("mi".toList).length = 2 := rfl
  have hne : (!(("214".toList : List Char)).isEmpty) = true := rfl
  have hb : ((180 : ℚ) < 0) = False := by norm_num
  have hfit : fitted_state cexCfg ("A".toList) ("214 mi".toList) 0 true
      = ⟨4, 5, 5⟩ := by
    simp only [fitted_state, hsplit, hne, hlen1, hlenv, hlenu, sizing_branch,
      initial_fit_state, initial_font_size, initial_distance_font_size, sign_height_of,
      text_gap_of, required_body_length, compute_distance_width, cexCfg, GenCfg.init,
      hb, min_def, max_def, FitState.mk.injEq]
    norm_num
  have hmain : (generate_sign_layout cexCfg ("A".toList) ("214 mi".toList)
      0 true).distance_font_size = 13 / 5 := by
    simp only [generate_sign_layout, hfit, min_def]
    norm_num
  exact ⟨hmain, by rw [hmain]; norm_num⟩
